import Mathlib

/-
Verification of the NES 6502-core emulator (src/nestempoaory/main.cpp) against
its natural-language specification.  The C++ class NESemulator is shallowly
embedded: its mutable fields become the record Mstate below, each member
function becomes a state-passing Lean function of the same name, and machine
integers become Nat reduced modulo 2^8 or 2^16 exactly where the source's
integer types truncate.
-/

namespace NES

/-- Mirror of the NESemulator mutable state.  Field widths follow the C++
declarations: programCounter is a ushort (16 bits), A/X/Y/addressBus/
stackPointer are uint8_t (note addressBus is 8 bits wide in the source even
though absolute addresses are 16 bits), ram has 0x800 byte cells, rom 0x8000.
The byte arrays are modelled as functions; readMemory reduces cell values
mod 256 to reflect the uint8_t element type. -/
@[ext]
structure Mstate where
  programCounter : Nat
  a : Nat
  x : Nat
  y : Nat
  addressBus : Nat
  ram : Nat → Nat
  rom : Nat → Nat
  flagCarry : Bool
  flagZero : Bool
  flagInterruptDisable : Bool
  flagDecimal : Bool
  flagOverflow : Bool
  flagNegative : Bool
  stackPointer : Nat
  cpuHalted : Bool
  cycleCount : Nat

/-- readMemory from the source: addresses below 0x800 read mirrored RAM,
addresses at or above 0x8000 read ROM, the middle region is an invalid
read (the source prints to cerr) returning the placeholder 0. -/
def readMemory (s : Mstate) (address : Nat) : Nat :=
  if address < 0x800 then s.ram (address % 0x800) % 256
  else if address ≥ 0x8000 then s.rom (address - 0x8000) % 256
  else 0

/-- True exactly when readMemory takes its else-branch, i.e. when the source
reports the invalid-memory-read (unmapped read) condition on cerr. -/
def unmappedRead (address : Nat) : Bool :=
  ¬ (address < 0x800) ∧ ¬ (address ≥ 0x8000)

/-- writeMemory from the source: every write lands in RAM at address mod
0x800, with the stored value truncated to a byte. -/
def writeMemory (s : Mstate) (address value : Nat) : Mstate :=
  { s with ram := fun i => if i = address % 0x800 then value % 256 else s.ram i }

/-- pushStack: write to 0x100 + SP, then decrement SP with uint8 wrap. -/
def pushStack (s : Mstate) (value : Nat) : Mstate :=
  let s1 := writeMemory s (0x100 + s.stackPointer) value
  { s1 with stackPointer := (s.stackPointer + 255) % 256 }

/-- pullStack: increment SP with uint8 wrap, then read 0x100 + SP.  Returns
the byte pulled together with the new state. -/
def pullStack (s : Mstate) : Nat × Mstate :=
  let sp1 := (s.stackPointer + 1) % 256
  (readMemory s (0x100 + sp1), { s with stackPointer := sp1 })

/-- readOperandsAbsoluteAddress: reads the 16-bit little-endian operand and
advances PC by two.  The source stores the combined address into the 8-bit
field _addressBus, so the assignment truncates the address modulo 256. -/
def readOperandsAbsoluteAddress (s : Mstate) : Mstate :=
  let low := readMemory s s.programCounter
  let pc1 := (s.programCounter + 1) % 65536
  let high := readMemory s pc1
  let pc2 := (pc1 + 1) % 65536
  { s with programCounter := pc2, addressBus := (256 * high + low) % 256 }

/-- Packed status byte as assembled by PHP and BRK: N V 1 1 D I Z C.  The
source ors disjoint bits, written here as a sum. -/
def statusByte (s : Mstate) : Nat :=
  (if s.flagNegative then 128 else 0) + (if s.flagOverflow then 64 else 0) +
  32 + 16 +
  (if s.flagDecimal then 8 else 0) + (if s.flagInterruptDisable then 4 else 0) +
  (if s.flagZero then 2 else 0) + (if s.flagCarry then 1 else 0)

/-- opROL helper: rotate left through carry at a memory address.  The uint8
shift of the source truncates before the old carry enters bit 0; since bit 0
of the shifted value is free, the or is written as an addition under one
mod 256. -/
def opROL (address input : Nat) (s : Mstate) : Mstate :=
  let v := (input * 2 + (if s.flagCarry then 1 else 0)) % 256
  let s1 := writeMemory s address v
  { s1 with flagCarry := decide (input > 127),
            flagNegative := decide (v > 127),
            flagZero := decide (v = 0) }

/-- opINC helper: wrapping increment of a memory byte. -/
def opINC (address input : Nat) (s : Mstate) : Mstate :=
  let v := (input + 1) % 256
  let s1 := writeMemory s address v
  { s1 with flagNegative := decide (v > 127), flagZero := decide (v = 0) }

/-- opDEC helper: wrapping decrement of a memory byte (input - 1 on uint8). -/
def opDEC (address input : Nat) (s : Mstate) : Mstate :=
  let v := (input + 255) % 256
  let s1 := writeMemory s address v
  { s1 with flagNegative := decide (v > 127), flagZero := decide (v = 0) }

/-- opORA helper. -/
def opORA (input : Nat) (s : Mstate) : Mstate :=
  let v := s.a ||| input
  { s with a := v, flagNegative := decide (v > 127), flagZero := decide (v = 0) }

/-- opAND helper. -/
def opAND (input : Nat) (s : Mstate) : Mstate :=
  let v := s.a &&& input
  { s with a := v, flagNegative := decide (v > 127), flagZero := decide (v = 0) }

/-- opEOR helper. -/
def opEOR (input : Nat) (s : Mstate) : Mstate :=
  let v := s.a ^^^ input
  { s with a := v, flagNegative := decide (v > 127), flagZero := decide (v = 0) }

/-- opADC helper: sum = A + operand + carry-in, carry-out when sum > 255,
overflow by the source's sign test (~(A ^ input) & (A ^ sum) & 0x80) != 0.
The int-level complement agrees with xor against 255 on the masked bit 7
for byte-valued A and input. -/
def opADC (input : Nat) (s : Mstate) : Mstate :=
  let sum := s.a + input + (if s.flagCarry then 1 else 0)
  let v := sum % 256
  { s with flagCarry := decide (sum > 255),
           flagOverflow := decide ((((s.a ^^^ input) ^^^ 255) &&& (s.a ^^^ sum) &&& 128) ≠ 0),
           a := v,
           flagNegative := decide (v > 127),
           flagZero := decide (v = 0) }

/-- opSBC helper: addition of the one's complement of the operand (a byte, so
~input & 0xFF = 255 - input) with the same carry-in; carry-out is bit 8 of
the 16-bit intermediate, overflow by ((A ^ result) & (A ^ input) & 0x80). -/
def opSBC (input : Nat) (s : Mstate) : Mstate :=
  let intermediate := s.a + (255 - input) + (if s.flagCarry then 1 else 0)
  let result := intermediate % 256
  { s with flagCarry := decide ((intermediate &&& 256) ≠ 0),
           flagOverflow := decide (((s.a ^^^ result) &&& (s.a ^^^ input) &&& 128) ≠ 0),
           a := result,
           flagNegative := decide ((result &&& 128) ≠ 0),
           flagZero := decide (result = 0) }

/-- opCMP helper: flags from the wrapped uint8 difference A - input. -/
def opCMP (input : Nat) (s : Mstate) : Mstate :=
  let diff := (s.a + 256 - input) % 256
  { s with flagCarry := decide (s.a ≥ input),
           flagZero := decide (s.a = input),
           flagNegative := decide ((diff &&& 128) ≠ 0) }

/-- opBIT helper. -/
def opBIT (input : Nat) (s : Mstate) : Mstate :=
  { s with flagZero := decide ((s.a &&& input) = 0),
           flagNegative := decide ((input &&& 128) ≠ 0),
           flagOverflow := decide ((input &&& 64) ≠ 0) }

/-- Opcode table: the source's switch in handleOpcode, one entry per case
label, in source order; none maps to the default branch (unknown opcode).
Each entry transcribes the corresponding case body. -/
def dispatch (op : Nat) : Option (Mstate → Mstate) :=
  match op with
  | 0x02 => some (fun s => { s with cpuHalted := true })
  | 0xA0 => some (fun s =>
      let v := readMemory s s.programCounter
      { s with y := v, flagZero := decide (v = 0), flagNegative := decide (v > 127),
               programCounter := (s.programCounter + 1) % 65536,
               cycleCount := s.cycleCount + 2 })
  | 0xA2 => some (fun s =>
      let v := readMemory s s.programCounter
      { s with x := v, flagZero := decide (v = 0), flagNegative := decide (v > 127),
               programCounter := (s.programCounter + 1) % 65536,
               cycleCount := s.cycleCount + 2 })
  | 0xA5 => some (fun s =>
      let zp := readMemory s s.programCounter
      let v := readMemory s zp
      { s with a := v, programCounter := (s.programCounter + 1) % 65536,
               flagZero := decide (v = 0), flagNegative := decide ((v &&& 128) ≠ 0),
               cycleCount := s.cycleCount + 3 })
  | 0xA9 => some (fun s =>
      let v := readMemory s s.programCounter
      { s with a := v, flagZero := decide (v = 0), flagNegative := decide (v > 127),
               programCounter := (s.programCounter + 1) % 65536,
               cycleCount := s.cycleCount + 2 })
  | 0xAD => some (fun s =>
      let low := readMemory s s.programCounter
      let pc1 := (s.programCounter + 1) % 65536
      let high := readMemory s pc1
      let pc2 := (pc1 + 1) % 65536
      let v := readMemory s (256 * high + low)
      { s with a := v, programCounter := pc2,
               flagZero := decide (v = 0), flagNegative := decide ((v &&& 128) ≠ 0),
               cycleCount := s.cycleCount + 4 })
  | 0x85 => some (fun s =>
      let temp := readMemory s s.programCounter
      let s1 := writeMemory s temp s.a
      { s1 with programCounter := (s1.programCounter + 1) % 65536,
                cycleCount := s1.cycleCount + 3 })
  | 0x8D => some (fun s =>
      let low := readMemory s s.programCounter
      let pc1 := (s.programCounter + 1) % 65536
      let high := readMemory s pc1
      let pc2 := (pc1 + 1) % 65536
      let s1 := writeMemory s (256 * high + low) s.a
      { s1 with programCounter := pc2, cycleCount := s1.cycleCount + 4 })
  | 0x86 => some (fun s =>
      let temp := readMemory s s.programCounter
      let s1 := writeMemory s temp s.x
      { s1 with programCounter := (s1.programCounter + 1) % 65536,
                cycleCount := s1.cycleCount + 3 })
  | 0x8E => some (fun s =>
      let low := readMemory s s.programCounter
      let pc1 := (s.programCounter + 1) % 65536
      let high := readMemory s pc1
      let pc2 := (pc1 + 1) % 65536
      let s1 := writeMemory s (256 * high + low) s.x
      { s1 with programCounter := pc2, cycleCount := s1.cycleCount + 4 })
  | 0x84 => some (fun s =>
      let temp := readMemory s s.programCounter
      let s1 := writeMemory s temp s.y
      { s1 with programCounter := (s1.programCounter + 1) % 65536,
                cycleCount := s1.cycleCount + 3 })
  | 0x8C => some (fun s =>
      let low := readMemory s s.programCounter
      let pc1 := (s.programCounter + 1) % 65536
      let high := readMemory s pc1
      let pc2 := (pc1 + 1) % 65536
      let s1 := writeMemory s (256 * high + low) s.y
      { s1 with programCounter := pc2, cycleCount := s1.cycleCount + 4 })
  | 0x10 => some (fun s =>
      let temp := readMemory s s.programCounter
      let pc1 := (s.programCounter + 1) % 65536
      if ¬ s.flagNegative then
        { s with programCounter :=
                   if temp > 127 then (pc1 + temp + 65280) % 65536 else (pc1 + temp) % 65536,
                 cycleCount := s.cycleCount + 2 + 3 }
      else
        { s with programCounter := pc1, cycleCount := s.cycleCount + 2 + 2 })
  | 0x30 => some (fun s =>
      let temp := readMemory s s.programCounter
      let pc1 := (s.programCounter + 1) % 65536
      if s.flagNegative then
        { s with programCounter :=
                   if temp > 127 then (pc1 + temp + 65280) % 65536 else (pc1 + temp) % 65536,
                 cycleCount := s.cycleCount + 2 + 3 }
      else
        { s with programCounter := pc1, cycleCount := s.cycleCount + 2 + 2 })
  | 0xD0 => some (fun s =>
      let offset := readMemory s s.programCounter
      let pc1 := (s.programCounter + 1) % 65536
      if ¬ s.flagZero then
        let newPC := if offset > 127 then (pc1 + offset + 65280) % 65536
                     else (pc1 + offset) % 65536
        { s with programCounter := newPC,
                 cycleCount :=
                   if (pc1 &&& 65280) ≠ (newPC &&& 65280) then s.cycleCount + 2 + 1 + 1
                   else s.cycleCount + 2 + 1 }
      else
        { s with programCounter := pc1, cycleCount := s.cycleCount + 2 })
  | 0xF0 => some (fun s =>
      let temp := readMemory s s.programCounter
      let pc1 := (s.programCounter + 1) % 65536
      if s.flagZero then
        { s with programCounter :=
                   if temp > 127 then (pc1 + temp + 65280) % 65536 else (pc1 + temp) % 65536,
                 cycleCount := s.cycleCount + 2 + 3 }
      else
        { s with programCounter := pc1, cycleCount := s.cycleCount + 2 + 2 })
  | 0x48 => some (fun s =>
      let s1 := pushStack s s.a
      { s1 with cycleCount := s1.cycleCount + 3 })
  | 0x68 => some (fun s =>
      let r := pullStack s
      { r.2 with a := r.1, flagZero := decide (r.1 = 0),
                 flagNegative := decide (r.1 > 127),
                 cycleCount := r.2.cycleCount + 4 })
  | 0x20 => some (fun s =>
      let low := readMemory s s.programCounter
      let pc1 := (s.programCounter + 1) % 65536
      let high := readMemory s pc1
      let pc2 := (pc1 + 1) % 65536
      let returnAddr := (pc2 + 65535) % 65536
      let s1 := pushStack { s with programCounter := pc2 } (returnAddr / 256)
      let s2 := pushStack s1 (returnAddr % 256)
      { s2 with programCounter := 256 * high + low, cycleCount := s2.cycleCount + 6 })
  | 0x60 => some (fun s =>
      let r1 := pullStack s
      let r2 := pullStack r1.2
      { r2.2 with programCounter := (256 * r2.1 + r1.1 + 1) % 65536,
                  cycleCount := r2.2.cycleCount + 6 })
  | 0xEA => some (fun s => { s with cycleCount := s.cycleCount + 2 })
  | 0xE8 => some (fun s =>
      let v := (s.x + 1) % 256
      { s with x := v, flagZero := decide (v = 0), flagNegative := decide (v > 127),
               cycleCount := s.cycleCount + 2 })
  | 0xC8 => some (fun s =>
      let v := (s.y + 1) % 256
      { s with y := v, flagZero := decide (v = 0), flagNegative := decide (v > 127),
               cycleCount := s.cycleCount + 2 })
  | 0xCA => some (fun s =>
      let v := (s.x + 255) % 256
      { s with x := v, flagZero := decide (v = 0), flagNegative := decide (v > 127),
               cycleCount := s.cycleCount + 2 })
  | 0x88 => some (fun s =>
      let v := (s.y + 255) % 256
      { s with y := v, flagZero := decide (v = 0), flagNegative := decide (v > 127),
               cycleCount := s.cycleCount + 2 })
  | 0xAA => some (fun s =>
      let v := s.a
      { s with x := v, flagZero := decide (v = 0), flagNegative := decide (v > 127),
               cycleCount := s.cycleCount + 2 })
  | 0x8A => some (fun s =>
      let v := s.x
      { s with a := v, flagZero := decide (v = 0), flagNegative := decide (v > 127),
               cycleCount := s.cycleCount + 2 })
  | 0xA8 => some (fun s =>
      let v := s.a
      { s with y := v, flagZero := decide (v = 0), flagNegative := decide (v > 127),
               cycleCount := s.cycleCount + 2 })
  | 0x98 => some (fun s =>
      let v := s.y
      { s with a := v, flagZero := decide (v = 0), flagNegative := decide (v > 127),
               cycleCount := s.cycleCount + 2 })
  | 0x9A => some (fun s =>
      { s with stackPointer := s.x, cycleCount := s.cycleCount + 2 })
  | 0xBA => some (fun s =>
      let v := s.stackPointer
      { s with x := v, flagZero := decide (v = 0), flagNegative := decide (v > 127),
               cycleCount := s.cycleCount + 2 })
  | 0x38 => some (fun s => { s with flagCarry := true, cycleCount := s.cycleCount + 2 })
  | 0x18 => some (fun s => { s with flagCarry := false, cycleCount := s.cycleCount + 2 })
  | 0xB8 => some (fun s => { s with flagOverflow := false, cycleCount := s.cycleCount + 2 })
  | 0x78 => some (fun s => { s with flagInterruptDisable := true, cycleCount := s.cycleCount + 2 })
  | 0x58 => some (fun s => { s with flagInterruptDisable := false, cycleCount := s.cycleCount + 2 })
  | 0xF8 => some (fun s => { s with flagDecimal := true, cycleCount := s.cycleCount + 2 })
  | 0xD8 => some (fun s => { s with flagDecimal := false, cycleCount := s.cycleCount + 2 })
  | 0x08 => some (fun s =>
      let s1 := pushStack s (statusByte s)
      { s1 with cycleCount := s1.cycleCount + 3 })
  | 0x28 => some (fun s =>
      let r := pullStack s
      let st := r.1
      { r.2 with flagNegative := decide ((st &&& 128) ≠ 0),
                 flagOverflow := decide ((st &&& 64) ≠ 0),
                 flagDecimal := decide ((st &&& 8) ≠ 0),
                 flagInterruptDisable := decide ((st &&& 4) ≠ 0),
                 flagZero := decide ((st &&& 2) ≠ 0),
                 flagCarry := decide ((st &&& 1) ≠ 0),
                 cycleCount := r.2.cycleCount + 4 })
  | 0x0A => some (fun s =>
      let v := (s.a * 2) % 256
      { s with flagCarry := decide (s.a > 127), a := v,
               flagZero := decide (v = 0), flagNegative := decide (v > 127),
               cycleCount := s.cycleCount + 2 })
  | 0x06 => some (fun s =>
      let zp := readMemory s s.programCounter
      let v0 := readMemory s zp
      let v := (v0 * 2) % 256
      let s1 := writeMemory { s with programCounter := (s.programCounter + 1) % 65536,
                                     flagCarry := decide ((v0 &&& 128) ≠ 0) } zp v
      { s1 with flagZero := decide (v = 0), flagNegative := decide ((v &&& 128) ≠ 0),
                cycleCount := s1.cycleCount + 5 })
  | 0x0E => some (fun s =>
      let low := readMemory s s.programCounter
      let pc1 := (s.programCounter + 1) % 65536
      let high := readMemory s pc1
      let pc2 := (pc1 + 1) % 65536
      let addr := 256 * high + low
      let v0 := readMemory s addr
      let v := (v0 * 2) % 256
      let s1 := writeMemory { s with programCounter := pc2,
                                     flagCarry := decide ((v0 &&& 128) ≠ 0) } addr v
      { s1 with flagZero := decide (v = 0), flagNegative := decide ((v &&& 128) ≠ 0),
                cycleCount := s1.cycleCount + 6 })
  | 0x26 => some (fun s =>
      let zp := readMemory s s.programCounter
      let v0 := readMemory s zp
      let v := (v0 * 2 + (if s.flagCarry then 1 else 0)) % 256
      let s1 := writeMemory { s with programCounter := (s.programCounter + 1) % 65536,
                                     flagCarry := decide ((v0 &&& 128) ≠ 0) } zp v
      { s1 with flagZero := decide (v = 0), flagNegative := decide ((v &&& 128) ≠ 0),
                cycleCount := s1.cycleCount + 5 })
  | 0x2E => some (fun s =>
      let s1 := readOperandsAbsoluteAddress s
      let s2 := opROL s1.addressBus (readMemory s1 s1.addressBus) s1
      { s2 with cycleCount := s2.cycleCount + 6 })
  | 0x4A => some (fun s =>
      let v := s.a / 2
      { s with flagCarry := decide ((s.a &&& 1) ≠ 0), a := v,
               flagZero := decide (v = 0), flagNegative := false,
               cycleCount := s.cycleCount + 2 })
  | 0x46 => some (fun s =>
      let zpAddr := readMemory s s.programCounter
      let value := readMemory s zpAddr
      let v := value / 2
      let s1 := writeMemory { s with programCounter := (s.programCounter + 1) % 65536,
                                     flagCarry := decide ((value &&& 1) ≠ 0) } zpAddr v
      { s1 with flagZero := decide (v = 0), flagNegative := false,
                cycleCount := s1.cycleCount + 5 })
  | 0x4E => some (fun s =>
      let s1 := readOperandsAbsoluteAddress s
      let value := readMemory s1 s1.addressBus
      let s2 := writeMemory { s1 with flagCarry := decide ((value &&& 1) ≠ 0) }
                  s1.addressBus (value / 2)
      { s2 with cycleCount := s2.cycleCount + 6 })
  | 0x6A => some (fun s =>
      let v := s.a / 2 + (if s.flagCarry then 128 else 0)
      { s with flagCarry := decide ((s.a &&& 1) ≠ 0), a := v,
               flagZero := decide (v = 0), flagNegative := decide ((v &&& 128) ≠ 0),
               cycleCount := s.cycleCount + 2 })
  | 0x66 => some (fun s =>
      let zpAddr := readMemory s s.programCounter
      let value := readMemory s zpAddr
      let v := value / 2 + (if s.flagCarry then 128 else 0)
      let s1 := writeMemory { s with programCounter := (s.programCounter + 1) % 65536 } zpAddr v
      { s1 with flagCarry := decide ((value &&& 1) ≠ 0),
                flagZero := decide (v = 0), flagNegative := decide (v > 127),
                cycleCount := s1.cycleCount + 5 })
  | 0x6E => some (fun s =>
      let s1 := readOperandsAbsoluteAddress s
      let value := readMemory s1 s1.addressBus
      let v := value / 2 + (if s1.flagCarry then 128 else 0)
      let s2 := writeMemory s1 s1.addressBus v
      { s2 with flagCarry := decide ((value &&& 1) ≠ 0),
                flagZero := decide (v = 0), flagNegative := decide (v > 127),
                cycleCount := s2.cycleCount + 6 })
  | 0x09 => some (fun s =>
      let value := readMemory s s.programCounter
      let s1 := opORA value s
      { s1 with programCounter := (s1.programCounter + 1) % 65536,
                cycleCount := s1.cycleCount + 2 })
  | 0x05 => some (fun s =>
      let address := readMemory s s.programCounter
      let value := readMemory s address
      let s1 := opORA value s
      { s1 with programCounter := (s1.programCounter + 1) % 65536,
                cycleCount := s1.cycleCount + 3 })
  | 0x0D => some (fun s =>
      let s1 := readOperandsAbsoluteAddress s
      let s2 := opORA (readMemory s1 s1.addressBus) s1
      { s2 with cycleCount := s2.cycleCount + 4 })
  | 0x29 => some (fun s =>
      let value := readMemory s s.programCounter
      let s1 := opAND value s
      { s1 with programCounter := (s1.programCounter + 1) % 65536,
                cycleCount := s1.cycleCount + 2 })
  | 0x25 => some (fun s =>
      let address := readMemory s s.programCounter
      let value := readMemory s address
      let s1 := opAND value s
      { s1 with programCounter := (s1.programCounter + 1) % 65536,
                cycleCount := s1.cycleCount + 3 })
  | 0x2D => some (fun s =>
      let s1 := readOperandsAbsoluteAddress s
      let s2 := opAND (readMemory s1 s1.addressBus) s1
      { s2 with cycleCount := s2.cycleCount + 4 })
  | 0x49 => some (fun s =>
      let value := readMemory s s.programCounter
      let s1 := opEOR value s
      { s1 with programCounter := (s1.programCounter + 1) % 65536,
                cycleCount := s1.cycleCount + 2 })
  | 0x45 => some (fun s =>
      let address := readMemory s s.programCounter
      let value := readMemory s address
      let s1 := opEOR value s
      { s1 with programCounter := (s1.programCounter + 1) % 65536,
                cycleCount := s1.cycleCount + 3 })
  | 0x4D => some (fun s =>
      let s1 := readOperandsAbsoluteAddress s
      let s2 := opEOR (readMemory s1 s1.addressBus) s1
      { s2 with cycleCount := s2.cycleCount + 4 })
  | 0xE6 => some (fun s =>
      let s1 := readOperandsAbsoluteAddress s
      let s2 := opINC s1.addressBus (readMemory s1 s1.addressBus) s1
      { s2 with cycleCount := s2.cycleCount + 5 })
  | 0xEE => some (fun s =>
      let s1 := readOperandsAbsoluteAddress s
      let s2 := opINC s1.addressBus (readMemory s1 s1.addressBus) s1
      { s2 with cycleCount := s2.cycleCount + 6 })
  | 0xC6 => some (fun s =>
      let s1 := readOperandsAbsoluteAddress s
      let s2 := opDEC s1.addressBus (readMemory s1 s1.addressBus) s1
      { s2 with cycleCount := s2.cycleCount + 5 })
  | 0xCE => some (fun s =>
      let s1 := readOperandsAbsoluteAddress s
      let s2 := opDEC s1.addressBus (readMemory s1 s1.addressBus) s1
      { s2 with cycleCount := s2.cycleCount + 6 })
  | 0x69 => some (fun s =>
      let value := readMemory s s.programCounter
      let s1 := opADC value s
      { s1 with programCounter := (s1.programCounter + 1) % 65536,
                cycleCount := s1.cycleCount + 2 })
  | 0x65 => some (fun s =>
      let address := readMemory s s.programCounter
      let value := readMemory s address
      let s1 := opADC value s
      { s1 with programCounter := (s1.programCounter + 1) % 65536,
                cycleCount := s1.cycleCount + 3 })
  | 0x6D => some (fun s =>
      let s1 := readOperandsAbsoluteAddress s
      let s2 := opADC (readMemory s1 s1.addressBus) s1
      { s2 with cycleCount := s2.cycleCount + 4 })
  | 0xE9 => some (fun s =>
      let value := readMemory s s.programCounter
      let s1 := opSBC value s
      { s1 with programCounter := (s1.programCounter + 1) % 65536,
                cycleCount := s1.cycleCount + 2 })
  | 0xE5 => some (fun s =>
      let address := readMemory s s.programCounter
      let value := readMemory s address
      let s1 := opSBC value s
      { s1 with programCounter := (s1.programCounter + 1) % 65536,
                cycleCount := s1.cycleCount + 3 })
  | 0xED => some (fun s =>
      let s1 := readOperandsAbsoluteAddress s
      let s2 := opSBC (readMemory s1 s1.addressBus) s1
      { s2 with cycleCount := s2.cycleCount + 4 })
  | 0xC9 => some (fun s =>
      let value := readMemory s s.programCounter
      let s1 := opCMP value s
      { s1 with programCounter := (s1.programCounter + 1) % 65536,
                cycleCount := s1.cycleCount + 2 })
  | 0xC5 => some (fun s =>
      let address := readMemory s s.programCounter
      let value := readMemory s address
      let s1 := opCMP value s
      { s1 with programCounter := (s1.programCounter + 1) % 65536,
                cycleCount := s1.cycleCount + 3 })
  | 0xCD => some (fun s =>
      let s1 := readOperandsAbsoluteAddress s
      let s2 := opCMP (readMemory s1 s1.addressBus) s1
      { s2 with cycleCount := s2.cycleCount + 4 })
  | 0xE0 => some (fun s =>
      let value := readMemory s s.programCounter
      { s with flagCarry := decide (s.x ≥ value), flagZero := decide (s.x = value),
               flagNegative := decide (((s.x : Int) - (value : Int)) > 127),
               programCounter := (s.programCounter + 1) % 65536,
               cycleCount := s.cycleCount + 2 })
  | 0xE4 => some (fun s =>
      let address := readMemory s s.programCounter
      let value := readMemory s address
      { s with flagCarry := decide (s.x ≥ value), flagZero := decide (s.x = value),
               flagNegative := decide (((s.x : Int) - (value : Int)) > 127),
               programCounter := (s.programCounter + 1) % 65536,
               cycleCount := s.cycleCount + 3 })
  | 0xEC => some (fun s =>
      let s1 := readOperandsAbsoluteAddress s
      let value := readMemory s1 s1.addressBus
      { s1 with flagCarry := decide (s1.x ≥ value), flagZero := decide (s1.x = value),
                flagNegative := decide (((s1.x : Int) - (value : Int)) > 127),
                cycleCount := s1.cycleCount + 4 })
  | 0xC0 => some (fun s =>
      let value := readMemory s s.programCounter
      { s with flagCarry := decide (s.y ≥ value), flagZero := decide (s.y = value),
               flagNegative := decide (((s.y : Int) - (value : Int)) > 127),
               programCounter := (s.programCounter + 1) % 65536,
               cycleCount := s.cycleCount + 2 })
  | 0xC4 => some (fun s =>
      let address := readMemory s s.programCounter
      let value := readMemory s address
      { s with flagCarry := decide (s.y ≥ value), flagZero := decide (s.y = value),
               flagNegative := decide (((s.y : Int) - (value : Int)) > 127),
               programCounter := (s.programCounter + 1) % 65536,
               cycleCount := s.cycleCount + 3 })
  | 0xCC => some (fun s =>
      let s1 := readOperandsAbsoluteAddress s
      let value := readMemory s1 s1.addressBus
      { s1 with flagCarry := decide (s1.y ≥ value), flagZero := decide (s1.y = value),
                flagNegative := decide (((s1.y : Int) - (value : Int)) > 127),
                cycleCount := s1.cycleCount + 4 })
  | 0x24 => some (fun s =>
      let address := readMemory s s.programCounter
      let value := readMemory s address
      let s1 := opBIT value s
      { s1 with programCounter := (s1.programCounter + 1) % 65536,
                cycleCount := s1.cycleCount + 3 })
  | 0x2C => some (fun s =>
      let s1 := readOperandsAbsoluteAddress s
      let value := readMemory s1 s1.addressBus
      let s2 := opBIT value s1
      { s2 with cycleCount := s2.cycleCount + 4 })
  | 0x00 => some (fun s =>
      let pc1 := (s.programCounter + 1) % 65536
      let s1 := pushStack { s with programCounter := pc1 } (pc1 / 256)
      let s2 := pushStack s1 (pc1 % 256)
      let s3 := pushStack s2 (statusByte s2)
      let s4 := { s3 with flagInterruptDisable := true }
      let pcl := readMemory s4 0xFFFE
      let pch := readMemory s4 0xFFFF
      { s4 with programCounter := 256 * pch + pcl, cycleCount := s4.cycleCount + 7 })
  | 0x40 => some (fun s =>
      let r := pullStack s
      let st := r.1
      let s1 := { r.2 with flagNegative := decide ((st &&& 128) ≠ 0),
                           flagOverflow := decide ((st &&& 64) ≠ 0),
                           flagDecimal := decide ((st &&& 8) ≠ 0),
                           flagInterruptDisable := decide ((st &&& 4) ≠ 0),
                           flagZero := decide ((st &&& 2) ≠ 0),
                           flagCarry := decide ((st &&& 1) ≠ 0) }
      let r2 := pullStack s1
      let r3 := pullStack r2.2
      { r3.2 with programCounter := 256 * r3.1 + r2.1,
                  cycleCount := r3.2.cycleCount + 6 })
  | 0x4C => some (fun s =>
      let low := readMemory s s.programCounter
      let pc1 := (s.programCounter + 1) % 65536
      let high := readMemory s pc1
      { s with programCounter := 256 * high + low, cycleCount := s.cycleCount + 3 })
  | 0x70 => some (fun s =>
      let temp := readMemory s s.programCounter
      let pc1 := (s.programCounter + 1) % 65536
      if s.flagOverflow then
        { s with programCounter :=
                   if temp > 127 then (pc1 + temp + 65280) % 65536 else (pc1 + temp) % 65536,
                 cycleCount := s.cycleCount + 2 + 3 }
      else
        { s with programCounter := pc1, cycleCount := s.cycleCount + 2 + 2 })
  | 0xB0 => some (fun s =>
      let temp := readMemory s s.programCounter
      let pc1 := (s.programCounter + 1) % 65536
      if s.flagCarry then
        { s with programCounter :=
                   if temp > 127 then (pc1 + temp + 65280) % 65536 else (pc1 + temp) % 65536,
                 cycleCount := s.cycleCount + 2 + 3 }
      else
        { s with programCounter := pc1, cycleCount := s.cycleCount + 2 + 2 })
  | 0x90 => some (fun s =>
      let temp := readMemory s s.programCounter
      let pc1 := (s.programCounter + 1) % 65536
      if ¬ s.flagCarry then
        { s with programCounter :=
                   if temp > 127 then (pc1 + temp + 65280) % 65536 else (pc1 + temp) % 65536,
                 cycleCount := s.cycleCount + 2 + 3 }
      else
        { s with programCounter := pc1, cycleCount := s.cycleCount + 2 + 2 })
  | 0x50 => some (fun s =>
      let temp := readMemory s s.programCounter
      let pc1 := (s.programCounter + 1) % 65536
      if ¬ s.flagOverflow then
        { s with programCounter :=
                   if temp > 127 then (pc1 + temp + 65280) % 65536 else (pc1 + temp) % 65536,
                 cycleCount := s.cycleCount + 2 + 3 }
      else
        { s with programCounter := pc1, cycleCount := s.cycleCount + 2 + 2 })
  | 0xB9 => some (fun s =>
      let low := readMemory s s.programCounter
      let pc1 := (s.programCounter + 1) % 65536
      let high := readMemory s pc1
      let pc2 := (pc1 + 1) % 65536
      let baseAddr := 256 * high + low
      let addr := (baseAddr + s.y) % 65536
      let v := readMemory s addr
      { s with a := v, programCounter := pc2,
               flagZero := decide (v = 0), flagNegative := decide ((v &&& 128) ≠ 0),
               cycleCount :=
                 if (baseAddr &&& 65280) ≠ (addr &&& 65280) then s.cycleCount + 4 + 1
                 else s.cycleCount + 4 })
  | 0xBD => some (fun s =>
      let low := readMemory s s.programCounter
      let pc1 := (s.programCounter + 1) % 65536
      let high := readMemory s pc1
      let pc2 := (pc1 + 1) % 65536
      let baseAddr := 256 * high + low
      let addr := (baseAddr + s.x) % 65536
      let v := readMemory s addr
      { s with a := v, programCounter := pc2,
               flagZero := decide (v = 0), flagNegative := decide ((v &&& 128) ≠ 0),
               cycleCount :=
                 if (baseAddr &&& 65280) ≠ (addr &&& 65280) then s.cycleCount + 4 + 1
                 else s.cycleCount + 4 })
  | 0x6C => some (fun s =>
      let ptrLow := readMemory s s.programCounter
      let pc1 := (s.programCounter + 1) % 65536
      let ptrHigh := readMemory s pc1
      let pc2 := (pc1 + 1) % 65536
      let ptr := 256 * ptrHigh + ptrLow
      let targetLow := readMemory s ptr
      let targetHigh := if (ptr &&& 255) = 255 then readMemory s (ptr &&& 65280)
                        else readMemory s (ptr + 1)
      { s with programCounter := 256 * targetHigh + targetLow,
               cycleCount := s.cycleCount + 5 })
  | 0x95 => some (fun s =>
      let zpAddr := readMemory s s.programCounter
      let s1 := writeMemory { s with programCounter := (s.programCounter + 1) % 65536 }
                  ((zpAddr + s.x) &&& 255) s.a
      { s1 with cycleCount := s1.cycleCount + 4 })
  | 0xB5 => some (fun s =>
      let zp := readMemory s s.programCounter
      let addr := (zp + s.x) % 256
      let v := readMemory s addr
      { s with a := v, programCounter := (s.programCounter + 1) % 65536,
               flagZero := decide (v = 0), flagNegative := decide ((v &&& 128) ≠ 0),
               cycleCount := s.cycleCount + 4 })
  | 0x75 => some (fun s =>
      let zpAddr := readMemory s s.programCounter
      let value := readMemory s ((zpAddr + s.x) &&& 255)
      let s1 := opADC value { s with programCounter := (s.programCounter + 1) % 65536 }
      { s1 with cycleCount := s1.cycleCount + 4 })
  | 0x91 => some (fun s =>
      let zp := readMemory s s.programCounter
      let ptrLow := readMemory s zp
      let ptrHigh := readMemory s ((zp + 1) % 256)
      let effective := (256 * ptrHigh + ptrLow + s.y) % 65536
      let s1 := writeMemory { s with programCounter := (s.programCounter + 1) % 65536 }
                  effective s.a
      { s1 with cycleCount := s1.cycleCount + 6 })
  | 0x81 => some (fun s =>
      let zp := readMemory s s.programCounter
      let ptrLow := readMemory s ((zp + s.x) % 256)
      let ptrHigh := readMemory s ((zp + s.x + 1) % 256)
      let effective := 256 * ptrHigh + ptrLow
      let s1 := writeMemory { s with programCounter := (s.programCounter + 1) % 65536 }
                  effective s.a
      { s1 with cycleCount := s1.cycleCount + 6 })
  | _ => none

/-- handleOpcode: dispatch on the opcode; the default branch of the source's
switch reports the unknown opcode on cerr and halts the CPU. -/
def handleOpcode (op : Nat) (s : Mstate) : Mstate :=
  match dispatch op with
  | some f => f s
  | none => { s with cpuHalted := true }

/-- emulateCPU: fetch the opcode at PC, advance PC past it, dispatch. -/
def emulateCPU (s : Mstate) : Mstate :=
  let opcode := readMemory s s.programCounter
  handleOpcode opcode { s with programCounter := (s.programCounter + 1) % 65536 }

/-- The run loop of the source: while (!_cpuHalted && i < 1000) emulateCPU. -/
def runLoop (s : Mstate) (i : Nat) : Mstate :=
  if ¬ s.cpuHalted ∧ i < 1000 then runLoop (emulateCPU s) (i + 1) else s
termination_by 1000 - i

/-- Number of iterations the source's run loop performs when started with
loop counter i: it counts one for every pass of the while body. -/
def runLoopCount (s : Mstate) (i : Nat) : Nat :=
  if ¬ s.cpuHalted ∧ i < 1000 then runLoopCount (emulateCPU s) (i + 1) + 1 else 0
termination_by 1000 - i

/-- run as in the source: start the loop with i = 0. -/
def run (s : Mstate) : Mstate :=
  runLoop s 0

/-- The input-byte indices dereferenced by the two std::copy calls of reset
after a successful file read: bytes 0..0xF go to the header and bytes
0x10..0x800F to the ROM.  The source performs both copies unconditionally,
with no check that the input holds that many bytes. -/
def loadImageReads : List Nat :=
  List.range 0x8010

/-- The opcodes whose memory operand is resolved through
readOperandsAbsoluteAddress in the source: ROL/LSR/ROR absolute, ORA/AND/EOR
absolute, ADC/SBC/CMP absolute, CPX/CPY/BIT absolute, and INC/DEC in both
zero-page and absolute encodings. -/
def absBusOpcodes : List Nat :=
  [0x2E, 0x4E, 0x6E, 0x0D, 0x2D, 0x4D, 0x6D, 0xED, 0xCD, 0xEC, 0xCC, 0x2C,
   0xE6, 0xEE, 0xC6, 0xCE]

/-- The action each absBusOpcodes instruction performs once its operand
address has been resolved: the same case bodies as dispatch, with the
resolved address passed explicitly.  Used to state where those instructions
actually read and write. -/
def execAbsAt (op addr : Nat) (s : Mstate) : Mstate :=
  match op with
  | 0x2E =>
      let s2 := opROL addr (readMemory s addr) s
      { s2 with cycleCount := s2.cycleCount + 6 }
  | 0x4E =>
      let value := readMemory s addr
      let s2 := writeMemory { s with flagCarry := decide ((value &&& 1) ≠ 0) }
                  addr (value / 2)
      { s2 with cycleCount := s2.cycleCount + 6 }
  | 0x6E =>
      let value := readMemory s addr
      let v := value / 2 + (if s.flagCarry then 128 else 0)
      let s2 := writeMemory s addr v
      { s2 with flagCarry := decide ((value &&& 1) ≠ 0),
                flagZero := decide (v = 0), flagNegative := decide (v > 127),
                cycleCount := s2.cycleCount + 6 }
  | 0x0D =>
      let s2 := opORA (readMemory s addr) s
      { s2 with cycleCount := s2.cycleCount + 4 }
  | 0x2D =>
      let s2 := opAND (readMemory s addr) s
      { s2 with cycleCount := s2.cycleCount + 4 }
  | 0x4D =>
      let s2 := opEOR (readMemory s addr) s
      { s2 with cycleCount := s2.cycleCount + 4 }
  | 0x6D =>
      let s2 := opADC (readMemory s addr) s
      { s2 with cycleCount := s2.cycleCount + 4 }
  | 0xED =>
      let s2 := opSBC (readMemory s addr) s
      { s2 with cycleCount := s2.cycleCount + 4 }
  | 0xCD =>
      let s2 := opCMP (readMemory s addr) s
      { s2 with cycleCount := s2.cycleCount + 4 }
  | 0xEC =>
      let value := readMemory s addr
      { s with flagCarry := decide (s.x ≥ value), flagZero := decide (s.x = value),
               flagNegative := decide (((s.x : Int) - (value : Int)) > 127),
               cycleCount := s.cycleCount + 4 }
  | 0xCC =>
      let value := readMemory s addr
      { s with flagCarry := decide (s.y ≥ value), flagZero := decide (s.y = value),
               flagNegative := decide (((s.y : Int) - (value : Int)) > 127),
               cycleCount := s.cycleCount + 4 }
  | 0x2C =>
      let value := readMemory s addr
      let s2 := opBIT value s
      { s2 with cycleCount := s2.cycleCount + 4 }
  | 0xE6 =>
      let s2 := opINC addr (readMemory s addr) s
      { s2 with cycleCount := s2.cycleCount + 5 }
  | 0xEE =>
      let s2 := opINC addr (readMemory s addr) s
      { s2 with cycleCount := s2.cycleCount + 6 }
  | 0xC6 =>
      let s2 := opDEC addr (readMemory s addr) s
      { s2 with cycleCount := s2.cycleCount + 5 }
  | 0xCE =>
      let s2 := opDEC addr (readMemory s addr) s
      { s2 with cycleCount := s2.cycleCount + 6 }
  | _ => s

/-- Convenience constructor for concrete test states: registers cleared,
flags at their reset values, SP = 0xFD, not halted, cycle count 0. -/
def baseState (pcv : Nat) (ramv romv : Nat → Nat) : Mstate :=
  { programCounter := pcv, a := 0, x := 0, y := 0, addressBus := 0,
    ram := ramv, rom := romv,
    flagCarry := false, flagZero := false, flagInterruptDisable := true,
    flagDecimal := false, flagOverflow := false, flagNegative := false,
    stackPointer := 0xFD, cpuHalted := false, cycleCount := 0 }

/-- Concrete state whose next instruction is ADC absolute (0x6D) with operand
address 0x1234; RAM holds 5 at address 0x34. -/
def adcAbsState : Mstate :=
  { baseState 0x8000
      (fun i => if i = 0x34 then 5 else 0)
      (fun i => if i = 0 then 0x6D else if i = 1 then 0x34 else if i = 2 then 0x12 else 0)
    with a := 3 }

/-- ROM image whose byte at offset 0xF0 is BEQ with relative offset 0x7F, so
that the taken branch from PC = 0x80F0 crosses a page boundary. -/
def beqRom : Nat → Nat :=
  fun i => if i = 0xF0 then 0xF0 else if i = 0xF1 then 0x7F else 0xEA

/-- BEQ test state with the Zero flag set (branch taken, page crossed). -/
def beqTakenState : Mstate :=
  { baseState 0x80F0 (fun _ => 0) beqRom with flagZero := true }

/-- BEQ test state with the Zero flag clear (branch not taken). -/
def beqNotTakenState : Mstate :=
  baseState 0x80F0 (fun _ => 0) beqRom

/-- State whose RAM cells all hold 7, used to observe where reads stop
hitting RAM. -/
def ramSevenState : Mstate :=
  baseState 0x8000 (fun _ => 7) (fun _ => 0)

/-- Family of states sitting in an endless run of NOP (0xEA) opcodes in ROM,
parameterised by program counter and accumulated cycle count. -/
def nopState (pcv cyc : Nat) : Mstate :=
  { baseState pcv (fun _ => 0) (fun _ => 0xEA) with cycleCount := cyc }

/-- State whose next instruction is LSR absolute (0x4E) on the RAM byte at
0x40 (value 2), with Zero and Negative both set beforehand. -/
def lsrAbsState : Mstate :=
  { baseState 0x8000
      (fun i => if i = 0x40 then 2 else 0)
      (fun i => if i = 0 then 0x4E else if i = 1 then 0x40 else if i = 2 then 0 else 0xEA)
    with flagZero := true, flagNegative := true }

/-- State whose next instruction is INC zero-page (0xE6) with operand byte
0x10. -/
def incZpState : Mstate :=
  baseState 0x8000 (fun _ => 0)
    (fun i => if i = 0 then 0xE6 else if i = 1 then 0x10 else 0)

/-- State whose next instruction is DEC zero-page (0xC6) with operand byte
0x10. -/
def decZpState : Mstate :=
  baseState 0x8000 (fun _ => 0)
    (fun i => if i = 0 then 0xC6 else if i = 1 then 0x10 else 0)

/-- State whose ROM is filled with the unimplemented opcode 0xFF. -/
def unknownOpState : Mstate :=
  { baseState 0x8000 (fun _ => 3) (fun _ => 0xFF)
    with a := 11, x := 12, y := 13, flagCarry := true, cycleCount := 17 }

/-- State whose next instruction is JSR 0x9234 and whose ROM holds RTS at
that target. -/
def jsrState : Mstate :=
  baseState 0x8000 (fun _ => 0)
    (fun i => if i = 0 then 0x20 else if i = 1 then 0x34 else if i = 2 then 0x92 else 0x60)

/-- State with accumulator 0 and Carry clear, for the ADC/SBC round trip. -/
def adcSbcZeroState : Mstate :=
  baseState 0x8000 (fun _ => 0) (fun _ => 0)

/-- State with accumulator 0x7F and Carry clear, one of the spec's boundary
inputs for ADC/SBC. -/
def adcSbcBoundaryState : Mstate :=
  { baseState 0x8000 (fun _ => 0) (fun _ => 0) with a := 0x7F }

theorem readMemory_lt (s : Mstate) (address : Nat) : readMemory s address < 256 := by
  unfold readMemory
  split
  · exact Nat.mod_lt _ (by omega)
  · split
    · exact Nat.mod_lt _ (by omega)
    · omega

theorem and_two_pow_ne_zero (n i : Nat) : ((n &&& 2 ^ i) ≠ 0) ↔ n.testBit i := by
  constructor
  · intro h
    obtain ⟨j, hj⟩ := Nat.ne_zero_implies_bit_true h
    rw [Nat.testBit_and] at hj
    have h2 := (Bool.and_eq_true _ _).mp hj
    have hij : i = j := by
      have h3 := h2.2
      rw [Nat.testBit_two_pow] at h3
      exact of_decide_eq_true h3
    rw [hij]
    exact h2.1
  · intro h hz
    have hbit : (n &&& 2 ^ i).testBit i = true := by
      simp [Nat.testBit_and, h, Nat.testBit_two_pow_self]
    rw [hz, Nat.zero_testBit] at hbit
    exact Bool.false_ne_true hbit

theorem testBit7_eq (x : Nat) (h : x < 512) : x.testBit 7 = decide (128 ≤ x % 256) := by
  rw [Nat.testBit_to_div_mod, decide_eq_decide]
  omega

@[simp]
theorem readMemory_set_pc (s : Mstate) (v address : Nat) :
    readMemory { s with programCounter := v } address = readMemory s address := rfl

theorem readOperands_after_fetch (s : Mstate) :
    readOperandsAbsoluteAddress { s with programCounter := (s.programCounter + 1) % 65536 } =
    { s with programCounter := (s.programCounter + 3) % 65536,
             addressBus := readMemory s ((s.programCounter + 1) % 65536) } := by
  have hlo : readMemory s ((s.programCounter + 1) % 65536) < 256 := readMemory_lt s _
  unfold readOperandsAbsoluteAddress
  simp only [readMemory_set_pc]
  ext <;> simp <;> omega

set_option maxHeartbeats 3200000 in
/-- C1: every instruction that resolves its memory operand through
readOperandsAbsoluteAddress (the sixteen opcodes of absBusOpcodes) performs
its operand access at the 16-bit operand address reduced modulo 256, because
the 8-bit _addressBus field truncates the resolved address: the step
factors through execAbsAt applied at (256 * high + low) % 256, and that
address equals the low operand byte alone, so the high byte never influences
the access. -/
theorem c1_absolute_operand_truncated (s : Mstate)
    (hop : readMemory s s.programCounter ∈ absBusOpcodes) :
    (256 * readMemory s ((s.programCounter + 2) % 65536) +
      readMemory s ((s.programCounter + 1) % 65536)) % 256 =
    readMemory s ((s.programCounter + 1) % 65536) ∧
    emulateCPU s =
      execAbsAt (readMemory s s.programCounter)
        ((256 * readMemory s ((s.programCounter + 2) % 65536) +
          readMemory s ((s.programCounter + 1) % 65536)) % 256)
        { s with programCounter := (s.programCounter + 3) % 65536,
                 addressBus := readMemory s ((s.programCounter + 1) % 65536) } := by
  have hlo : readMemory s ((s.programCounter + 1) % 65536) < 256 := readMemory_lt s _
  have h1 : (256 * readMemory s ((s.programCounter + 2) % 65536) +
      readMemory s ((s.programCounter + 1) % 65536)) % 256 =
      readMemory s ((s.programCounter + 1) % 65536) := by omega
  refine ⟨h1, ?_⟩
  rw [h1]
  simp only [absBusOpcodes, List.mem_cons, List.not_mem_nil, or_false] at hop
  rcases hop with hf|hf|hf|hf|hf|hf|hf|hf|hf|hf|hf|hf|hf|hf|hf|hf <;>
    (simp only [emulateCPU]
     rw [hf]
     simp only [handleOpcode, dispatch, execAbsAt]
     rw [readOperands_after_fetch])

/-- Witness for C1 at a concrete ADC absolute instruction. -/
theorem c1_witness :
    readMemory adcAbsState adcAbsState.programCounter ∈ absBusOpcodes ∧
    ((256 * readMemory adcAbsState ((adcAbsState.programCounter + 2) % 65536) +
       readMemory adcAbsState ((adcAbsState.programCounter + 1) % 65536)) % 256 =
     readMemory adcAbsState ((adcAbsState.programCounter + 1) % 65536) ∧
     emulateCPU adcAbsState =
       execAbsAt (readMemory adcAbsState adcAbsState.programCounter)
         ((256 * readMemory adcAbsState ((adcAbsState.programCounter + 2) % 65536) +
           readMemory adcAbsState ((adcAbsState.programCounter + 1) % 65536)) % 256)
         { adcAbsState with
             programCounter := (adcAbsState.programCounter + 3) % 65536,
             addressBus := readMemory adcAbsState ((adcAbsState.programCounter + 1) % 65536) }) :=
  ⟨by decide, c1_absolute_operand_truncated adcAbsState (by decide)⟩

theorem readMemory_low (s : Mstate) (address : Nat) (h : address < 0x800) :
    readMemory s address = s.ram (address % 0x800) % 256 := by
  unfold readMemory
  rw [if_pos h]

theorem emulateCPU_nop (pcv cyc : Nat) (h1 : 0x8000 ≤ pcv) (h2 : pcv + 1 < 65536) :
    emulateCPU (nopState pcv cyc) = nopState (pcv + 1) (cyc + 2) := by
  have hfetch : readMemory (nopState pcv cyc) ((nopState pcv cyc).programCounter) = 0xEA := by
    show readMemory (nopState pcv cyc) pcv = 0xEA
    unfold readMemory
    rw [if_neg (by omega), if_pos (by omega)]
    rfl
  unfold emulateCPU
  rw [hfetch]
  simp only [handleOpcode, dispatch]
  ext <;> simp [nopState, baseState] <;> omega

theorem iterate_nop (n pcv cyc : Nat) (h1 : 0x8000 ≤ pcv) (h2 : pcv + n < 65536) :
    emulateCPU^[n] (nopState pcv cyc) = nopState (pcv + n) (cyc + 2 * n) := by
  induction n generalizing pcv cyc with
  | zero => simp
  | succ k ih =>
      rw [Function.iterate_succ_apply, emulateCPU_nop pcv cyc h1 (by omega),
          ih (pcv + 1) (cyc + 2) (by omega) (by omega)]
      congr 1 <;> omega

theorem runLoopCount_nop (n : Nat) : ∀ (i pcv cyc : Nat), i + n = 1000 → 0x8000 ≤ pcv →
    pcv + n < 65536 → runLoopCount (nopState pcv cyc) i = n := by
  induction n with
  | zero =>
      intro i pcv cyc hn h1 h2
      unfold runLoopCount
      rw [if_neg (by omega)]
  | succ k ih =>
      intro i pcv cyc hn h1 h2
      unfold runLoopCount
      rw [if_pos ⟨by simp [nopState, baseState], by omega⟩,
          emulateCPU_nop pcv cyc h1 (by omega),
          ih (i + 1) (pcv + 1) (cyc + 2) (by omega) (by omega) (by omega)]

theorem runLoopCount_ge (m : Nat) : ∀ (s : Mstate) (i : Nat), i + m ≤ 1000 →
    (∀ k, k < m → (emulateCPU^[k] s).cpuHalted = false) →
    m ≤ runLoopCount s i := by
  induction m with
  | zero => intro s i h1 h2; omega
  | succ k ih =>
      intro s i h1 h2
      have h0 : s.cpuHalted = false := by simpa using h2 0 (by omega)
      unfold runLoopCount
      rw [if_pos ⟨by simp [h0], by omega⟩]
      have hrest : k ≤ runLoopCount (emulateCPU s) (i + 1) := by
        refine ih (emulateCPU s) (i + 1) (by omega) ?_
        intro j hj
        have h3 := h2 (j + 1) (by omega)
        rwa [Function.iterate_succ_apply] at h3
      omega

/-- C5 counterexample: started in an endless run of NOPs with nothing ever
setting cpuHalted, the source's loop performs exactly 1000 iterations and
stops with cpuHalted still false, so the Halted flag is not its sole stop
condition and no 1001st step is performed. -/
theorem c5_step_limit_counterexample :
    runLoopCount (nopState 0x8000 0) 0 = 1000 ∧
    (emulateCPU^[1000] (nopState 0x8000 0)).cpuHalted = false ∧
    ¬ (1000 + 1 ≤ runLoopCount (nopState 0x8000 0) 0) := by
  have h1 : runLoopCount (nopState 0x8000 0) 0 = 1000 :=
    runLoopCount_nop 1000 0 0x8000 0 (by omega) (by omega) (by omega)
  have h2 : emulateCPU^[1000] (nopState 0x8000 0) = nopState (0x8000 + 1000) (0 + 2 * 1000) :=
    iterate_nop 1000 0x8000 0 (by omega) (by omega)
  refine ⟨h1, ?_, by omega⟩
  rw [h2]
  rfl

/-- C5 amended: the loop stops when cpuHalted becomes true or after 1000
iterations, whichever comes first; below that built-in limit the Halted flag
is the only stop condition: for every n < 1000, if cpuHalted is still false
after each of the first n steps, the loop performs at least n + 1 steps. -/
theorem c5_loop_runs_until_halt_amended (s : Mstate) (n : Nat) (hn : n < 1000)
    (hh : ∀ k, k ≤ n → (emulateCPU^[k] s).cpuHalted = false) :
    n + 1 ≤ runLoopCount s 0 :=
  runLoopCount_ge (n + 1) s 0 (by omega) (fun k hk => hh k (by omega))

/-- Witness for C5 amended at the NOP state with n = 3. -/
theorem c5_witness :
    3 < 1000 ∧
    (∀ k, k ≤ 3 → (emulateCPU^[k] (nopState 0x8000 0)).cpuHalted = false) ∧
    3 + 1 ≤ runLoopCount (nopState 0x8000 0) 0 := by
  have hh : ∀ k, k ≤ 3 → (emulateCPU^[k] (nopState 0x8000 0)).cpuHalted = false := by
    intro k hk
    rw [iterate_nop k 0x8000 0 (by omega) (by omega)]
    rfl
  exact ⟨by omega, hh, c5_loop_runs_until_halt_amended (nopState 0x8000 0) 3 (by omega) hh⟩

/-- C9: executing JSR (0x20) at address p with a target T in the ROM range
jumps to T, leaves the stack pointer two lower, and pushes the return
address p + 2 (the address of the instruction after the JSR minus one) high
byte first at 0x100 + SP, then low byte at 0x100 + SP - 1; any later state
with that stack pointer value and those two stack bytes intact that executes
RTS (0x60) ends with the program counter at p + 3, the instruction
immediately following the JSR. -/
theorem c9_jsr_rts_roundtrip (s s' : Mstate)
    (hpc : s.programCounter < 65536) (hsp : s.stackPointer < 256)
    (hj : readMemory s s.programCounter = 0x20)
    (hrom : 0x8000 ≤ 256 * readMemory s ((s.programCounter + 2) % 65536) +
              readMemory s ((s.programCounter + 1) % 65536)) :
    (emulateCPU s).programCounter =
      256 * readMemory s ((s.programCounter + 2) % 65536) +
        readMemory s ((s.programCounter + 1) % 65536) ∧
    (emulateCPU s).stackPointer = (s.stackPointer + 254) % 256 ∧
    (emulateCPU s).ram (0x100 + s.stackPointer) =
      ((s.programCounter + 2) % 65536) / 256 ∧
    (emulateCPU s).ram (0x100 + (s.stackPointer + 255) % 256) =
      ((s.programCounter + 2) % 65536) % 256 ∧
    (s'.stackPointer = (s.stackPointer + 254) % 256 →
      readMemory s' s'.programCounter = 0x60 →
      s'.ram (0x100 + s.stackPointer) = ((s.programCounter + 2) % 65536) / 256 →
      s'.ram (0x100 + (s.stackPointer + 255) % 256) =
        ((s.programCounter + 2) % 65536) % 256 →
      (emulateCPU s').programCounter = (s.programCounter + 3) % 65536) := by
  have e1 : ((s.programCounter + 1) % 65536 + 1) % 65536 = (s.programCounter + 2) % 65536 := by
    omega
  have e2 : ((s.programCounter + 2) % 65536 + 1) % 65536 = (s.programCounter + 3) % 65536 := by
    omega
  have e3 : ((s.programCounter + 3) % 65536 + 65535) % 65536 = (s.programCounter + 2) % 65536 := by
    omega
  have e4 : ((s.stackPointer + 255) % 256 + 255) % 256 = (s.stackPointer + 254) % 256 := by
    omega
  have e5 : (0x100 + s.stackPointer) % 0x800 = 0x100 + s.stackPointer := by omega
  have e6 : (0x100 + (s.stackPointer + 255) % 256) % 0x800 =
      0x100 + (s.stackPointer + 255) % 256 := by omega
  have e7 : ((s.programCounter + 2) % 65536) / 256 % 256 =
      ((s.programCounter + 2) % 65536) / 256 := by omega
  have e8 : ((s.programCounter + 2) % 65536) % 256 % 256 =
      ((s.programCounter + 2) % 65536) % 256 := by omega
  have hne : ¬ (0x100 + s.stackPointer = 0x100 + (s.stackPointer + 255) % 256) := by omega
  refine ⟨?_, ?_, ?_, ?_, ?_⟩
  · simp only [emulateCPU]
    rw [hj]
    simp only [handleOpcode, dispatch, pushStack, writeMemory]
    simp only [readMemory_set_pc]
    rw [e1]
  · simp only [emulateCPU]
    rw [hj]
    simp only [handleOpcode, dispatch, pushStack, writeMemory]
    rw [e4]
  · simp only [emulateCPU]
    rw [hj]
    simp only [handleOpcode, dispatch, pushStack, writeMemory]
    rw [e1, e2, e3, e5, e6]
    rw [if_neg hne, if_pos rfl]
    exact e7
  · simp only [emulateCPU]
    rw [hj]
    simp only [handleOpcode, dispatch, pushStack, writeMemory]
    rw [e1, e2, e3, e5, e6]
    rw [if_pos rfl]
    exact e8
  · intro h1 h2 h3 h4
    simp only [emulateCPU]
    rw [h2]
    simp only [handleOpcode, dispatch, pullStack]
    simp only [readMemory_set_pc]
    rw [h1]
    have f2 : ((s.stackPointer + 254) % 256 + 1) % 256 = (s.stackPointer + 255) % 256 := by
      omega
    rw [f2]
    have f3 : ((s.stackPointer + 255) % 256 + 1) % 256 = s.stackPointer := by omega
    rw [f3]
    rw [readMemory_low s' (0x100 + (s.stackPointer + 255) % 256) (by omega)]
    rw [readMemory_low _ (0x100 + s.stackPointer) (by omega)]
    dsimp only
    rw [e5, e6, h3, h4]
    omega

/-- Witness for C9: JSR 0x9234 executed at 0x8000, then RTS at 0x9234. -/
theorem c9_witness :
    (emulateCPU jsrState).programCounter =
      256 * readMemory jsrState ((jsrState.programCounter + 2) % 65536) +
        readMemory jsrState ((jsrState.programCounter + 1) % 65536) ∧
    (emulateCPU (emulateCPU jsrState)).programCounter =
      (jsrState.programCounter + 3) % 65536 :=
  have h := c9_jsr_rts_roundtrip jsrState (emulateCPU jsrState)
    (by decide) (by decide) (by decide) (by decide)
  ⟨h.1, h.2.2.2.2 (by decide) (by decide) (by decide) (by decide)⟩

theorem and_256_ne_zero (n : Nat) (h : n < 512) : ((n &&& 256) ≠ 0) ↔ 256 ≤ n := by
  have h256 : (256 : Nat) = 2 ^ 8 := by norm_num
  rw [h256, and_two_pow_ne_zero, Nat.testBit_to_div_mod, decide_eq_true_eq]
  omega

theorem adc_overflow_iff (a b sum : Nat) (ha : a < 256) (hb : b < 256) (hs : sum < 512) :
    ((((a ^^^ b) ^^^ 255) &&& (a ^^^ sum) &&& 128) ≠ 0 ↔
      ((a < 128 ∧ b < 128 ∧ 128 ≤ sum % 256) ∨
       (128 ≤ a ∧ 128 ≤ b ∧ sum % 256 < 128))) := by
  have h128 : (128 : Nat) = 2 ^ 7 := by norm_num
  rw [h128, and_two_pow_ne_zero, Nat.testBit_and, Nat.testBit_xor, Nat.testBit_xor,
      Nat.testBit_xor]
  have h255 : (255 : Nat).testBit 7 = true := by decide
  rw [h255, testBit7_eq a (by omega), testBit7_eq b (by omega), testBit7_eq sum hs]
  by_cases h1 : 128 ≤ a % 256 <;> by_cases h2 : 128 ≤ b % 256 <;>
    by_cases h3 : 128 ≤ sum % 256 <;> simp [h1, h2, h3] <;> omega

theorem sbc_overflow_iff (a b r : Nat) (ha : a < 256) (hb : b < 256) (hr : r < 256) :
    (((a ^^^ r) &&& (a ^^^ b) &&& 128) ≠ 0 ↔
      ((128 ≤ a ↔ r < 128) ∧ (128 ≤ a ↔ b < 128))) := by
  have h128 : (128 : Nat) = 2 ^ 7 := by norm_num
  rw [h128, and_two_pow_ne_zero, Nat.testBit_and, Nat.testBit_xor, Nat.testBit_xor]
  rw [testBit7_eq a (by omega), testBit7_eq b (by omega), testBit7_eq r (by omega)]
  by_cases h1 : 128 ≤ a % 256 <;> by_cases h2 : 128 ≤ b % 256 <;>
    by_cases h3 : 128 ≤ r % 256 <;> simp [h1, h2, h3] <;> omega

theorem opADC_spec (input : Nat) (s : Mstate) :
    (opADC input s).a = (s.a + input + (if s.flagCarry then 1 else 0)) % 256 ∧
    (opADC input s).flagCarry =
      decide (s.a + input + (if s.flagCarry then 1 else 0) > 255) ∧
    (opADC input s).flagOverflow =
      decide ((((s.a ^^^ input) ^^^ 255) &&&
        (s.a ^^^ (s.a + input + (if s.flagCarry then 1 else 0))) &&& 128) ≠ 0) :=
  ⟨rfl, rfl, rfl⟩

theorem opSBC_spec (input : Nat) (s : Mstate) :
    (opSBC input s).a =
      (s.a + (255 - input) + (if s.flagCarry then 1 else 0)) % 256 ∧
    (opSBC input s).flagCarry =
      decide (((s.a + (255 - input) + (if s.flagCarry then 1 else 0)) &&& 256) ≠ 0) ∧
    (opSBC input s).flagOverflow =
      decide (((s.a ^^^ (s.a + (255 - input) + (if s.flagCarry then 1 else 0)) % 256) &&&
        (s.a ^^^ input) &&& 128) ≠ 0) :=
  ⟨rfl, rfl, rfl⟩

/-- C10 counterexample: with accumulator 0, operand 0 and Carry clear,
ADC then SBC with the same operand leaves the accumulator at 255, not 0, so
the round trip does not restore the accumulator for every initial Carry. -/
theorem c10_roundtrip_counterexample :
    adcSbcZeroState.a = 0 ∧ adcSbcZeroState.flagCarry = false ∧
    (opSBC 0 (opADC 0 adcSbcZeroState)).a = 255 := by
  decide

/-- C10 amended: for byte-valued accumulator and operand, ADC's Carry and
Overflow and SBC's Carry and Overflow satisfy the documented formulas (carry
as 9-bit overflow, overflow as the sign tests, stated arithmetically), and
SBC after ADC with the same operand yields
(a + carryIn + adcCarryOut + 255) mod 256 — it restores the accumulator
exactly when carryIn + adcCarryOut = 1, not for every initial Carry. -/
theorem c10_adc_sbc_amended (s : Mstate) (b : Nat) (ha : s.a < 256) (hb : b < 256) :
    (opADC b s).flagCarry =
      decide (s.a + b + (if s.flagCarry then 1 else 0) > 255) ∧
    ((opADC b s).flagOverflow = true ↔
      (s.a < 128 ∧ b < 128 ∧ 128 ≤ (s.a + b + (if s.flagCarry then 1 else 0)) % 256) ∨
      (128 ≤ s.a ∧ 128 ≤ b ∧ (s.a + b + (if s.flagCarry then 1 else 0)) % 256 < 128)) ∧
    ((opSBC b (opADC b s)).flagCarry = true ↔
      256 ≤ (opADC b s).a + (255 - b) + (if (opADC b s).flagCarry then 1 else 0)) ∧
    ((opSBC b (opADC b s)).flagOverflow = true ↔
      ((128 ≤ (opADC b s).a ↔ (opSBC b (opADC b s)).a < 128) ∧
       (128 ≤ (opADC b s).a ↔ b < 128))) ∧
    (opSBC b (opADC b s)).a =
      (s.a + (if s.flagCarry then 1 else 0) +
        (if (opADC b s).flagCarry then 1 else 0) + 255) % 256 ∧
    ((opSBC b (opADC b s)).a = s.a ↔
      (if s.flagCarry then 1 else 0) + (if (opADC b s).flagCarry then 1 else 0) = 1) := by
  obtain ⟨ha1, hk1, ho1⟩ := opADC_spec b s
  obtain ⟨ha2, hk2, ho2⟩ := opSBC_spec b (opADC b s)
  have hc : (if s.flagCarry then 1 else 0) ≤ 1 := by split <;> omega
  have hk : (if (opADC b s).flagCarry then 1 else 0) ≤ 1 := by split <;> omega
  have hsum : s.a + b + (if s.flagCarry then 1 else 0) < 512 := by omega
  have hA1lt : (opADC b s).a < 256 := by
    rw [ha1]
    omega
  have hkval : (if (opADC b s).flagCarry then 1 else 0) =
      if s.a + b + (if s.flagCarry then 1 else 0) > 255 then 1 else 0 := by
    rw [hk1]
    by_cases h : s.a + b + (if s.flagCarry then 1 else 0) > 255 <;> simp [h]
  refine ⟨hk1, ?_, ?_, ?_, ?_, ?_⟩
  · rw [ho1, decide_eq_true_eq]
    exact adc_overflow_iff s.a b _ ha hb hsum
  · rw [hk2, decide_eq_true_eq]
    exact and_256_ne_zero _ (by omega)
  · rw [ho2, decide_eq_true_eq, ha2]
    exact sbc_overflow_iff (opADC b s).a b _ hA1lt hb (Nat.mod_lt _ (by omega))
  · rw [ha2, ha1, hkval]
    by_cases h : s.a + b + (if s.flagCarry then 1 else 0) > 255 <;>
      simp only [h, if_true, if_false] <;> omega
  · rw [ha2, ha1, hkval]
    by_cases h : s.a + b + (if s.flagCarry then 1 else 0) > 255 <;>
      simp only [h, if_true, if_false] <;> omega

/-- Witness for C10 amended at the boundary input a = 0x7F, b = 0x01 with
Carry clear: the ADC overflow condition and the restore condition evaluate
as the theorem states. -/
theorem c10_witness :
    adcSbcBoundaryState.a < 256 ∧ (1 : Nat) < 256 ∧
    ((opADC 1 adcSbcBoundaryState).flagOverflow = true ↔
      (adcSbcBoundaryState.a < 128 ∧ (1 : Nat) < 128 ∧
        128 ≤ (adcSbcBoundaryState.a + 1 +
          (if adcSbcBoundaryState.flagCarry then 1 else 0)) % 256) ∨
      (128 ≤ adcSbcBoundaryState.a ∧ 128 ≤ (1 : Nat) ∧
        (adcSbcBoundaryState.a + 1 +
          (if adcSbcBoundaryState.flagCarry then 1 else 0)) % 256 < 128)) ∧
    ((opSBC 1 (opADC 1 adcSbcBoundaryState)).a = adcSbcBoundaryState.a ↔
      (if adcSbcBoundaryState.flagCarry then 1 else 0) +
        (if (opADC 1 adcSbcBoundaryState).flagCarry then 1 else 0) = 1) :=
  ⟨by decide, by decide,
   (c10_adc_sbc_amended adcSbcBoundaryState 1 (by decide) (by decide)).2.1,
   (c10_adc_sbc_amended adcSbcBoundaryState 1 (by decide) (by decide)).2.2.2.2.2⟩

/-- C2: evaluation of the BEQ case at a concrete failing input.  From
PC = 0x80F0 with Zero set, the taken branch to 0x8171 crosses a page
boundary (high byte 0x81 against fall-through high byte 0x80), yet the code
charges 2 + 3 = 5 cycles, never 4; with Zero clear it charges 2 + 2 = 4
cycles, never 2.  The claim's figures (4 and 2) do not hold on the code. -/
theorem c2_beq_cycles_evaluation :
    beqTakenState.cycleCount = 0 ∧
    (emulateCPU beqTakenState).cycleCount = 5 ∧
    (emulateCPU beqTakenState).programCounter = 0x8171 ∧
    beqNotTakenState.cycleCount = 0 ∧
    (emulateCPU beqNotTakenState).cycleCount = 4 := by
  decide

/-- C3 counterexample: at address 0x1000, which the claim places inside the
8 KiB mirror window, the code signals an unmapped read and returns the
placeholder 0 instead of the RAM byte at 0x1000 mod 2048 (which is 7 in
ramSevenState). -/
theorem c3_mirror_window_counterexample :
    unmappedRead 0x1000 = true ∧
    readMemory ramSevenState 0x1000 = 0 ∧
    ramSevenState.ram (0x1000 % 2048) % 256 = 7 := by
  decide

/-- C3 amended: the RAM window ends at 0x800, not 0x2000.  Reads below 0x800
return the RAM byte at address mod 2048 without the unmapped-read condition;
the whole region from 0x800 up to the ROM base 0x8000 is unmapped and reads
as the placeholder zero. -/
theorem c3_ram_window_amended :
    (∀ (s : Mstate) (addr : Nat), addr < 0x800 →
      readMemory s addr = s.ram (addr % 2048) % 256 ∧ unmappedRead addr = false) ∧
    (∀ (s : Mstate) (addr : Nat), 0x800 ≤ addr → addr < 0x8000 →
      unmappedRead addr = true ∧ readMemory s addr = 0) := by
  constructor
  · intro s addr h
    constructor
    · simp [readMemory, h]
    · simp [unmappedRead, h]
  · intro s addr h1 h2
    constructor
    · simp [unmappedRead]
      omega
    · unfold readMemory
      rw [if_neg (by omega), if_neg (by omega)]

/-- Witness for C3 amended at addresses 5 (RAM) and 0x1234 (unmapped). -/
theorem c3_witness :
    (readMemory ramSevenState 5 = ramSevenState.ram (5 % 2048) % 256 ∧
     unmappedRead 5 = false) ∧
    (unmappedRead 0x1234 = true ∧ readMemory ramSevenState 0x1234 = 0) :=
  ⟨c3_ram_window_amended.1 ramSevenState 5 (by decide),
   c3_ram_window_amended.2 ramSevenState 0x1234 (by decide) (by decide)⟩

/-- C4: for any input shorter than 0x8010 = 16 + 32768 bytes, the two
unconditional std::copy calls of reset dereference an input index at or
beyond the input length — the source has no size check at all, so instead
of failing with an ImageSizeError it reads past the end of the input. -/
theorem c4_load_reads_past_end (len : Nat) (h : len < 0x8010) :
    ∃ i ∈ loadImageReads, len ≤ i := by
  refine ⟨len, ?_, le_refl len⟩
  simp only [loadImageReads, List.mem_range]
  exact h

/-- Witness for C4 at a 16-byte input (a bare header with no ROM body). -/
theorem c4_witness : ∃ i ∈ loadImageReads, 16 ≤ i :=
  c4_load_reads_past_end 16 (by decide)

/-- C6: evaluation of LSR absolute (0x4E) at a concrete failing input.  The
operand byte 2 shifts to 1 (nonzero), so the claim requires Zero = false and
Negative = false afterwards; the code leaves both flags at their prior true
values because the 0x4E case, unlike 0x4A and 0x46, never updates them.
Carry (bit 0 of the pre-shift operand) and the stored result are correct. -/
theorem c6_lsr_absolute_flags_evaluation :
    (emulateCPU lsrAbsState).ram 0x40 = 1 ∧
    (emulateCPU lsrAbsState).flagZero = true ∧
    (emulateCPU lsrAbsState).flagNegative = true ∧
    (emulateCPU lsrAbsState).flagCarry = false := by
  decide

/-- C7: evaluation of INC and DEC zero-page at concrete inputs.  Both call
readOperandsAbsoluteAddress, which consumes two operand bytes, so the
program counter lands at the opcode address plus 3, not plus 2 as the claim
requires for a zero-page instruction. -/
theorem c7_inc_dec_zeropage_pc_evaluation :
    incZpState.programCounter = 0x8000 ∧
    (emulateCPU incZpState).programCounter = 0x8003 ∧
    decZpState.programCounter = 0x8000 ∧
    (emulateCPU decZpState).programCounter = 0x8003 := by
  decide

/-- C8: a step whose fetched opcode has no entry in the dispatch table (the
switch default, which reports the unknown opcode and halts) sets cpuHalted
and leaves every register, flag, memory cell and the cycle count unchanged,
with the program counter advanced exactly one byte past the opcode. -/
theorem c8_unknown_opcode_halts (s : Mstate)
    (h : dispatch (readMemory s s.programCounter) = none) :
    emulateCPU s =
      { s with programCounter := (s.programCounter + 1) % 65536,
               cpuHalted := true } := by
  simp only [emulateCPU, handleOpcode, h]

/-- Witness for C8 at a state about to fetch the unimplemented opcode 0xFF. -/
theorem c8_witness :
    dispatch (readMemory unknownOpState unknownOpState.programCounter) = none ∧
    emulateCPU unknownOpState =
      { unknownOpState with
          programCounter := (unknownOpState.programCounter + 1) % 65536,
          cpuHalted := true } :=
  ⟨rfl, c8_unknown_opcode_halts unknownOpState rfl⟩

end NES
